import Mathlib

/-!
Verification of the `DragAction` drag-and-drop controller of the
coral-spectrum repository (file `coral-dragaction/src/scripts/DragAction.js`).

The controller is embedded shallowly:
* pixel quantities are rationals (the source works with JS numbers obtained
  from `getBoundingClientRect`, `parseFloat` and pointer events);
* element geometry is a `Rect` in document coordinates;
* the per-session mutable fields of a `DragAction` instance
  (`_dropZoneEntered`, `_dropElement`, the element's current position, the
  `is-dragging` class) form a `SessionState`;
* the immutable-per-session inputs (configuration, container geometry,
  element size, the pointer offset captured at drag start, the drop-zone
  list, the scrolling element's offsets) form a `DragParams`;
* every dispatched `coral-dragaction:*` custom event becomes a `DragEvent`
  value, so that each handler returns the list of events it dispatches,
  in dispatch order.
-/

namespace CoralDragAction

/-- Axis restriction enumeration of `DragAction` (`free`, `vertical`,
`horizontal`). -/
inductive Axis where
  | free
  | vertical
  | horizontal
deriving DecidableEq, Repr

/-- The configuration flags read by `_drag`: `axis`, `scroll`
(`coral-dragaction-scroll`) and `containment`
(`coral-dragaction-containment`). -/
structure DragConfig where
  axis : Axis
  scroll : Bool
  containment : Bool
deriving DecidableEq, Repr

/-- A bounding box, as produced by `getBoundingClientRect`, translated to
document coordinates (left, top, width, height). -/
structure Rect where
  left : ℚ
  top : ℚ
  width : ℚ
  height : ℚ
deriving DecidableEq, Repr

/-- Embedding of the helper `within(scrollingElement, a, b)`: both rects are
shifted by the scrolling element's offsets and compared with the strict
comparisons `bl > ar || br < al || bt > ab || bb < at`, negated. -/
def within (scrollTop scrollLeft : ℚ) (a b : Rect) : Bool :=
  let al := a.left + scrollLeft
  let ar := al + a.width
  let bl := b.left + scrollLeft
  let br := bl + b.width
  let aT := a.top + scrollTop
  let aB := aT + a.height
  let bT := b.top + scrollTop
  let bB := bT + b.height
  !(decide (bl > ar) || decide (br < al) || decide (bT > aB) || decide (bB < aT))

/-- Specification-side notion of bounding-box intersection: the two closed
rectangles share a common point. -/
def sharesPoint (a b : Rect) : Prop :=
  ∃ x y : ℚ,
    (a.left ≤ x ∧ x ≤ a.left + a.width) ∧ (b.left ≤ x ∧ x ≤ b.left + b.width) ∧
    (a.top ≤ y ∧ y ≤ a.top + a.height) ∧ (b.top ≤ y ∧ y ≤ b.top + b.height)

/-- Embedding of `isOverDropZone`: walk the configured drop zones in order
with `Array.prototype.some`, returning the first zone `within` which the
dragged element lies, and `null` (here `none`) otherwise.  The source's
guard for an absent or empty `_dropZones` list coincides with `List.find?`
on the empty list. -/
def isOverDropZone (scrollTop scrollLeft : ℚ) (dragElement : Rect)
    (dropZones : List Rect) : Option Rect :=
  dropZones.find? (fun z => within scrollTop scrollLeft dragElement z)

/-- The immutable-per-session inputs of a drag session. `dragPosX/Y` is
`this._dragPosition`, the pointer offset relative to the element's top-left
corner captured by `_dragStart`; `docScrollTop/Left` are the scrolling
element's offsets. -/
structure DragParams where
  cfg : DragConfig
  container : Rect
  elemW : ℚ
  elemH : ℚ
  dragPosX : ℚ
  dragPosY : ℚ
  zones : List Rect
  docScrollTop : ℚ
  docScrollLeft : ℚ
deriving DecidableEq, Repr

/-- The per-session mutable state of a `DragAction` instance: the element's
current document position (`top`, `left`), the `_dropZoneEntered` flag, the
`_dropElement` reference and the `is-dragging` class. -/
structure SessionState where
  top : ℚ
  left : ℚ
  entered : Bool
  dropElement : Option Rect
  dragging : Bool
deriving DecidableEq, Repr

/-- A pointer-move input: the page coordinates returned by
`getPagePosition(event)`. -/
structure MoveInput where
  pageX : ℚ
  pageY : ℚ
deriving DecidableEq, Repr

/-- The custom events dispatched by the controller, with their pointer
coordinates and, for the drop-zone events, the `dropElement` detail.
`dragleave` carries `this._dropElement`, which may be unset, hence the
`Option`. -/
inductive DragEvent where
  | dragstart (pageX pageY : ℚ)
  | drag (pageX pageY : ℚ)
  | dragenter (pageX pageY : ℚ) (zone : Rect)
  | dragover (pageX pageY : ℚ) (zone : Rect)
  | dragleave (pageX pageY : ℚ) (zone : Option Rect)
  | drop (pageX pageY : ℚ) (zone : Rect)
  | dragend (pageX pageY : ℚ)
deriving DecidableEq, Repr

/-- Embedding of the `newPosition.top` computation of `_drag`: skipped for
`axis = horizontal`; under containment, the three-way guard
`top >= containerPosition.top && top + h <= containerPosition.top + cH`,
`pagePosition.y <= containerPosition.top`,
`pagePosition.y >= containerPosition.top + cH`, in that order, and
`undefined` (here `none`) when none of the guards fires. -/
def newTopOpt (P : DragParams) (m : MoveInput) : Option ℚ :=
  if P.cfg.axis = Axis.horizontal then none
  else
    let top := m.pageY - P.dragPosY
    if P.cfg.containment then
      if P.container.top ≤ top ∧
          top + P.elemH ≤ P.container.top + P.container.height then some top
      else if m.pageY ≤ P.container.top then some P.container.top
      else if P.container.top + P.container.height ≤ m.pageY then
        some (P.container.top + P.container.height - P.elemH)
      else none
    else some top

/-- Embedding of the `newPosition.left` computation of `_drag`, symmetric to
`newTopOpt` and skipped for `axis = vertical`. -/
def newLeftOpt (P : DragParams) (m : MoveInput) : Option ℚ :=
  if P.cfg.axis = Axis.vertical then none
  else
    let left := m.pageX - P.dragPosX
    if P.cfg.containment then
      if P.container.left ≤ left ∧
          left + P.elemW ≤ P.container.left + P.container.width then some left
      else if m.pageX ≤ P.container.left then some P.container.left
      else if P.container.left + P.container.width ≤ m.pageX then
        some (P.container.left + P.container.width - P.elemW)
      else none
    else some left

/-- The element's document position after the style writes of `_drag`.  The
source assigns
`style.top = (newPosition.top - dragElementPosition.top + cssTop) + 'px'`,
which moves the element's document top exactly to `newPosition.top`; when
`newPosition.top` is `undefined` the computed string is `'NaNpx'`, an
invalid CSS value which the CSSOM rejects, leaving the previous offset in
place — modelled by `Option.getD` with the previous position. -/
def moveNewPos (P : DragParams) (s : SessionState) (m : MoveInput) : ℚ × ℚ :=
  ((newLeftOpt P m).getD s.left, (newTopOpt P m).getD s.top)

/-- The drop zone found by `isOverDropZone` in `_drag`, evaluated after the
position update (the source calls it after the style writes, so `within`
sees the element's new bounding box). -/
def overAfterMove (P : DragParams) (s : SessionState) (m : MoveInput) : Option Rect :=
  isOverDropZone P.docScrollTop P.docScrollLeft
    { left := (moveNewPos P s m).1, top := (moveNewPos P s m).2,
      width := P.elemW, height := P.elemH }
    P.zones

/-- Embedding of `_drag`: guarded by the `is-dragging` class; dispatches
`drag`, applies the new position, then runs the drop-zone logic driven by
`_dropZoneEntered` (`dragenter` then `dragover` on first overlap, `dragover`
alone while overlap continues, `dragleave` when overlap ends).  The
scroll-on-drag block only mutates the container's scroll offsets and is
embedded separately as `scrollStepContainer`/`scrollStepBody`. -/
def dragMoveStep (P : DragParams) (s : SessionState) (m : MoveInput) :
    SessionState × List DragEvent :=
  if s.dragging = false then (s, [])
  else
    let left' := (moveNewPos P s m).1
    let top' := (moveNewPos P s m).2
    match overAfterMove P s m with
    | some z =>
      ({ s with top := top', left := left', entered := true, dropElement := some z },
        DragEvent.drag m.pageX m.pageY ::
          (if s.entered then [] else [DragEvent.dragenter m.pageX m.pageY z]) ++
          [DragEvent.dragover m.pageX m.pageY z])
    | none =>
      ({ s with top := top', left := left', entered := false },
        DragEvent.drag m.pageX m.pageY ::
          (if s.entered then [DragEvent.dragleave m.pageX m.pageY s.dropElement] else []))

/-- A whole sequence of `_drag` invocations of one session, with the
concatenated event stream. -/
def dragTrace (P : DragParams) (s : SessionState) :
    List MoveInput → SessionState × List DragEvent
  | [] => (s, [])
  | m :: rest =>
    let step := dragMoveStep P s m
    let next := dragTrace P step.1 rest
    (next.1, step.2 ++ next.2)

/-- Embedding of the event dispatches of `_dragEnd`: guarded by the
`is-dragging` class; when `_dropZoneEntered` holds, `isOverDropZone` is
re-evaluated at the element's current bounds and a `drop` is dispatched when
it still finds a zone; a final `dragend` always follows.  (The overflow
restoration of `_dragEnd` is embedded separately as `overflowDragEnd`.) -/
def dragEndEvents (P : DragParams) (s : SessionState) (pageX pageY : ℚ) :
    List DragEvent :=
  if s.dragging = false then []
  else
    (if s.entered then
      match isOverDropZone P.docScrollTop P.docScrollLeft
          { left := s.left, top := s.top, width := P.elemW, height := P.elemH }
          P.zones with
      | some z => [DragEvent.drop pageX pageY z]
      | none => []
    else []) ++ [DragEvent.dragend pageX pageY]

/-- The overflow-related state touched by `_dragStart`/`_dragEnd`: the body's
and the container's current overflow values, the `_overflow` expando fields
used to save them, and the `is-dragging` guard.  When the resolved container
is the body itself, the container fields are unused (the source's
`matches('body')` guard). -/
structure OverflowState where
  bodyOverflow : String
  containerOverflow : String
  bodySaved : Option String
  containerSaved : Option String
  dragging : Bool
deriving DecidableEq, Repr

/-- Embedding of the overflow handling of `_dragStart`: saves the body's
computed overflow in `document.body._overflow` and sets it to `hidden`; when
the container is not the body, saves its overflow likewise and sets it to
`scroll` or `hidden` depending on the `scroll` option; marks the session as
dragging (the `is-dragging` class). -/
def overflowDragStart (scroll containerIsBody : Bool) (s : OverflowState) :
    OverflowState :=
  { bodySaved := some s.bodyOverflow
    bodyOverflow := "hidden"
    containerSaved := if containerIsBody then s.containerSaved else some s.containerOverflow
    containerOverflow :=
      if containerIsBody then s.containerOverflow
      else if scroll then "scroll" else "hidden"
    dragging := true }

/-- Embedding of the overflow handling of `_dragEnd`: guarded by the
`is-dragging` class; writes the saved values back and clears the saved
fields (`_overflow = undefined`).  Writing an `undefined` saved value to a
CSSOM property is rejected and keeps the current value — modelled by
`Option.getD` with the current value. -/
def overflowDragEnd (containerIsBody : Bool) (s : OverflowState) : OverflowState :=
  if s.dragging = false then s
  else
    { bodyOverflow := s.bodySaved.getD s.bodyOverflow
      bodySaved := none
      containerOverflow :=
        if containerIsBody then s.containerOverflow
        else s.containerSaved.getD s.containerOverflow
      containerSaved := if containerIsBody then s.containerSaved else none
      dragging := false }

/-- Models the DOM semantics of assigning to `scrollTop`/`scrollLeft`: the
platform clamps the written value to the scrollable range
`[0, scrollSize - clientSize]` (here `[0, maxOffset]`). -/
def setScrollOffset (maxOffset v : ℚ) : ℚ :=
  max 0 (min v maxOffset)

/-- Embedding of the scroll-on-drag block of `_drag` for a container other
than the body (`DEFAULT_SCROLL_OFFSET = 20`, `DEFAULT_SCROLL_BY = 10`).
`elemTop/Left` and `cTop/Left` are the client-coordinate bounding-box
origins of the element and the container; `cH/cW` the container's box size;
`maxTop/maxLeft` the container's maximum scroll offsets, enforced by the
platform clamp `setScrollOffset`.  Returns the new
`(scrollTop, scrollLeft)`. -/
def scrollStepContainer (elemTop elemLeft elemH elemW cTop cLeft cH cW
    scrollTop scrollLeft maxTop maxLeft : ℚ) : ℚ × ℚ :=
  let st :=
    if elemTop - cTop < 20 then setScrollOffset maxTop (scrollTop - 10)
    else if elemTop - cTop + elemH > cH - 20 ∧ elemTop - cTop + elemH < cH then
      setScrollOffset maxTop (scrollTop + 10)
    else scrollTop
  let sl :=
    if elemLeft - cLeft < 20 then setScrollOffset maxLeft (scrollLeft - 10)
    else if elemLeft - cLeft + elemW > cW - 20 ∧ elemLeft - cLeft + elemW < cW then
      setScrollOffset maxLeft (scrollLeft + 10)
    else scrollLeft
  (st, sl)

/-- Embedding of the scroll-on-drag block of `_drag` when the container is
the body: the document's scrolling element is moved, the viewport size is
`innerH/innerW`, and the downward/rightward moves are additionally guarded
by `dragElementPosition + size + 20 < scrollHeight/Width`
(`dragElementPosition = rect + documentScroll`).  The platform clamp bounds
the offsets by `scrollSize - clientSize`. -/
def scrollStepBody (rectTop rectLeft elemH elemW innerH innerW
    docScrollTop docScrollLeft scrollH scrollW clientH clientW : ℚ) : ℚ × ℚ :=
  let st :=
    if rectTop < 20 then setScrollOffset (scrollH - clientH) (docScrollTop - 10)
    else if rectTop + elemH > innerH - 20 ∧
        rectTop + docScrollTop + elemH + 20 < scrollH then
      setScrollOffset (scrollH - clientH) (docScrollTop + 10)
    else docScrollTop
  let sl :=
    if rectLeft < 20 then setScrollOffset (scrollW - clientW) (docScrollLeft - 10)
    else if rectLeft + elemW > innerW - 20 ∧
        rectLeft + docScrollLeft + elemW + 20 < scrollW then
      setScrollOffset (scrollW - clientW) (docScrollLeft + 10)
    else docScrollLeft
  (st, sl)

/-- A loosely-typed JavaScript value, as far as the constructor and the
configuration setters discriminate: `typeof value === 'string'`,
`value instanceof HTMLElement`, `[object NodeList]`, and truthiness.
(JS `NaN` is not representable in `ℚ` and plays no role in these paths.) -/
inductive JSValue where
  | undef
  | nullv
  | boolv (b : Bool)
  | numv (q : ℚ)
  | strv (s : String)
  | element (id : Nat)
  | nodeList (ids : List Nat)
deriving DecidableEq, Repr

/-- JavaScript truthiness of a `JSValue` (`undefined`, `null`, `false`, `0`
and the empty string are falsy). -/
def JSValue.truthy : JSValue → Bool
  | .undef => false
  | .nullv => false
  | .boolv b => b
  | .numv q => q != 0
  | .strv s => s != ""
  | .element _ => true
  | .nodeList _ => true

/-- Whether the value is a string (`typeof value === 'string'`). -/
def JSValue.isStr : JSValue → Bool
  | .strv _ => true
  | _ => false

/-- Whether the value is an element (`value instanceof HTMLElement`). -/
def JSValue.isElem : JSValue → Bool
  | .element _ => true
  | _ => false

/-- The exceptions the constructor can raise: the two documented `Error`s
(`'Coral.DragAction: dragElement is missing'` and
`'Coral.DragAction: dragElement is null'`) and the implicit `TypeError`
thrown when `this._dragElement.dragAction` dereferences the `null` left in
`el` by a truthy argument that is neither a string nor an element. -/
inductive ConstructError where
  | missingError
  | nullSelectorError
  | typeError
deriving DecidableEq, Repr

/-- The observable outcome of a successful construction: the resolved
element and the prior controller destroyed by the single-owner check
(`if (this._dragElement.dragAction) destroy()`), if the element already
owned one; the new controller reference is stored on the element
afterwards. -/
structure ConstructOk where
  elemId : Nat
  destroyedPrior : Option Nat
deriving DecidableEq, Repr

/-- Embedding of the `DragAction` constructor's argument handling.
`query` models `document.querySelector` and `owner` the `dragAction`
back-references currently stored on elements.  Order of checks as in the
source: the falsy check throws the missing error; a string argument is
resolved and throws the null error when unresolved; an element argument is
used directly; any other truthy value leaves `el === null`, so the later
read `this._dragElement.dragAction` throws a `TypeError`. -/
def construct (query : String → Option Nat) (owner : Nat → Option Nat)
    (arg : JSValue) : Except ConstructError ConstructOk :=
  if arg.truthy = false then .error .missingError
  else
    match arg with
    | .element i => .ok { elemId := i, destroyedPrior := owner i }
    | .strv s =>
      match query s with
      | none => .error .nullSelectorError
      | some i => .ok { elemId := i, destroyedPrior := owner i }
    | _ => .error .typeError

/-- Modelled from the spec: `transform.string` of coral-utils (not under
`src/`) converts the incoming attribute/property value to a string, as the
spec's coercion semantics require before the enumeration check; standard
JavaScript `String(...)` rendering is used for the primitive tags. -/
def jsToString : JSValue → String
  | .undef => "undefined"
  | .nullv => "null"
  | .boolv true => "true"
  | .boolv false => "false"
  | .numv q => toString q
  | .strv s => s
  | .element _ => "[object HTMLElement]"
  | .nodeList _ => "[object NodeList]"

/-- Modelled from the spec: the `axis` setter
(`validate.enumeration(axis)(value) && value || axis.FREE` with
`validate.enumeration` from coral-utils, not under `src/`) keeps a
recognized enumeration value and falls back to `free` otherwise, never
raising. -/
def setAxis (v : JSValue) : String :=
  let s := jsToString v
  if s = "free" ∨ s = "vertical" ∨ s = "horizontal" then s else "free"

/-- Modelled from the spec: the `scroll` setter coerces any input to a
boolean (`transform.boolean` of coral-utils, not under `src/`; JavaScript
truthiness), never raising. -/
def setScroll (v : JSValue) : Bool :=
  v.truthy

/-- Modelled from the spec: the `containment` setter coerces any input to a
boolean exactly like `scroll`. -/
def setContainment (v : JSValue) : Bool :=
  v.truthy

/-- Projection of an event stream to its `dragenter` (`true`) and
`dragleave` (`false`) occurrences. -/
def enterLeaveProj : List DragEvent → List Bool
  | [] => []
  | .dragenter _ _ _ :: rest => true :: enterLeaveProj rest
  | .dragleave _ _ _ :: rest => false :: enterLeaveProj rest
  | _ :: rest => enterLeaveProj rest

/-- Alternation of an enter/leave stream relative to the current
`_dropZoneEntered` flag: from a non-entered state only `dragenter` may come
next, from an entered state only `dragleave`, and each occurrence flips the
state. -/
def altFrom : Bool → List Bool → Bool
  | _, [] => true
  | b, e :: rest => (e == !b) && altFrom e rest

/-! ### Helper lemmas about `dragMoveStep` -/

theorem dragMoveStep_not_dragging (P : DragParams) (s : SessionState) (m : MoveInput)
    (h : s.dragging = false) : dragMoveStep P s m = (s, []) := by
  simp [dragMoveStep, h]

theorem dragMoveStep_fst (P : DragParams) (s : SessionState) (m : MoveInput)
    (h : s.dragging = true) :
    (dragMoveStep P s m).1.top = (newTopOpt P m).getD s.top ∧
    (dragMoveStep P s m).1.left = (newLeftOpt P m).getD s.left ∧
    (dragMoveStep P s m).1.entered = (overAfterMove P s m).isSome ∧
    (dragMoveStep P s m).1.dragging = s.dragging := by
  cases hov : overAfterMove P s m <;>
    simp [dragMoveStep, h, hov, moveNewPos]

theorem newTopOpt_some_bounds (P : DragParams) (m : MoveInput) (t : ℚ)
    (hc : P.cfg.containment = true) (hfh : P.elemH ≤ P.container.height)
    (ht : newTopOpt P m = some t) :
    P.container.top ≤ t ∧ t + P.elemH ≤ P.container.top + P.container.height := by
  by_cases hax : P.cfg.axis = Axis.horizontal
  · rw [show newTopOpt P m = none from by unfold newTopOpt; rw [if_pos hax]] at ht
    cases ht
  · by_cases h1 : P.container.top ≤ m.pageY - P.dragPosY ∧
        m.pageY - P.dragPosY + P.elemH ≤ P.container.top + P.container.height
    · rw [show newTopOpt P m = some (m.pageY - P.dragPosY) from by
        unfold newTopOpt; rw [if_neg hax, hc]; simp only [if_true]; rw [if_pos h1]] at ht
      injection ht with h
      subst h
      exact h1
    · by_cases h2 : m.pageY ≤ P.container.top
      · rw [show newTopOpt P m = some P.container.top from by
          unfold newTopOpt; rw [if_neg hax, hc]; simp only [if_true]
          rw [if_neg h1, if_pos h2]] at ht
        injection ht with h
        subst h
        exact ⟨le_refl _, by linarith⟩
      · by_cases h3 : P.container.top + P.container.height ≤ m.pageY
        · rw [show newTopOpt P m =
              some (P.container.top + P.container.height - P.elemH) from by
            unfold newTopOpt; rw [if_neg hax, hc]; simp only [if_true]
            rw [if_neg h1, if_neg h2, if_pos h3]] at ht
          injection ht with h
          subst h
          exact ⟨by linarith, by linarith⟩
        · rw [show newTopOpt P m = none from by
            unfold newTopOpt; rw [if_neg hax, hc]; simp only [if_true]
            rw [if_neg h1, if_neg h2, if_neg h3]] at ht
          cases ht

theorem newTopOpt_snap_top (P : DragParams) (m : MoveInput)
    (hc : P.cfg.containment = true) (hax : ¬P.cfg.axis = Axis.horizontal)
    (hoy : 0 ≤ P.dragPosY) (hpy : m.pageY ≤ P.container.top) :
    newTopOpt P m = some P.container.top := by
  unfold newTopOpt
  rw [if_neg hax, hc]
  simp only [if_true]
  by_cases h1 : P.container.top ≤ m.pageY - P.dragPosY ∧
      m.pageY - P.dragPosY + P.elemH ≤ P.container.top + P.container.height
  · rw [if_pos h1]
    congr 1
    linarith [h1.1]
  · rw [if_neg h1, if_pos hpy]

theorem newTopOpt_snap_bottom (P : DragParams) (m : MoveInput)
    (hc : P.cfg.containment = true) (hax : ¬P.cfg.axis = Axis.horizontal)
    (hoyh : P.dragPosY ≤ P.elemH) (hH : 0 < P.container.height)
    (hpy : P.container.top + P.container.height ≤ m.pageY) :
    newTopOpt P m = some (P.container.top + P.container.height - P.elemH) := by
  unfold newTopOpt
  rw [if_neg hax, hc]
  simp only [if_true]
  by_cases h1 : P.container.top ≤ m.pageY - P.dragPosY ∧
      m.pageY - P.dragPosY + P.elemH ≤ P.container.top + P.container.height
  · rw [if_pos h1]
    congr 1
    linarith [h1.2]
  · rw [if_neg h1, if_neg (by linarith : ¬m.pageY ≤ P.container.top),
      if_pos hpy]

theorem newLeftOpt_some_bounds (P : DragParams) (m : MoveInput) (t : ℚ)
    (hc : P.cfg.containment = true) (hfw : P.elemW ≤ P.container.width)
    (ht : newLeftOpt P m = some t) :
    P.container.left ≤ t ∧ t + P.elemW ≤ P.container.left + P.container.width := by
  by_cases hax : P.cfg.axis = Axis.vertical
  · rw [show newLeftOpt P m = none from by unfold newLeftOpt; rw [if_pos hax]] at ht
    cases ht
  · by_cases h1 : P.container.left ≤ m.pageX - P.dragPosX ∧
        m.pageX - P.dragPosX + P.elemW ≤ P.container.left + P.container.width
    · rw [show newLeftOpt P m = some (m.pageX - P.dragPosX) from by
        unfold newLeftOpt; rw [if_neg hax, hc]; simp only [if_true]; rw [if_pos h1]] at ht
      injection ht with h
      subst h
      exact h1
    · by_cases h2 : m.pageX ≤ P.container.left
      · rw [show newLeftOpt P m = some P.container.left from by
          unfold newLeftOpt; rw [if_neg hax, hc]; simp only [if_true]
          rw [if_neg h1, if_pos h2]] at ht
        injection ht with h
        subst h
        exact ⟨le_refl _, by linarith⟩
      · by_cases h3 : P.container.left + P.container.width ≤ m.pageX
        · rw [show newLeftOpt P m =
              some (P.container.left + P.container.width - P.elemW) from by
            unfold newLeftOpt; rw [if_neg hax, hc]; simp only [if_true]
            rw [if_neg h1, if_neg h2, if_pos h3]] at ht
          injection ht with h
          subst h
          exact ⟨by linarith, by linarith⟩
        · rw [show newLeftOpt P m = none from by
            unfold newLeftOpt; rw [if_neg hax, hc]; simp only [if_true]
            rw [if_neg h1, if_neg h2, if_neg h3]] at ht
          cases ht

theorem newLeftOpt_snap_left (P : DragParams) (m : MoveInput)
    (hc : P.cfg.containment = true) (hax : ¬P.cfg.axis = Axis.vertical)
    (hox : 0 ≤ P.dragPosX) (hpx : m.pageX ≤ P.container.left) :
    newLeftOpt P m = some P.container.left := by
  unfold newLeftOpt
  rw [if_neg hax, hc]
  simp only [if_true]
  by_cases h1 : P.container.left ≤ m.pageX - P.dragPosX ∧
      m.pageX - P.dragPosX + P.elemW ≤ P.container.left + P.container.width
  · rw [if_pos h1]
    congr 1
    linarith [h1.1]
  · rw [if_neg h1, if_pos hpx]

theorem newLeftOpt_snap_right (P : DragParams) (m : MoveInput)
    (hc : P.cfg.containment = true) (hax : ¬P.cfg.axis = Axis.vertical)
    (hoxw : P.dragPosX ≤ P.elemW) (hW : 0 < P.container.width)
    (hpx : P.container.left + P.container.width ≤ m.pageX) :
    newLeftOpt P m = some (P.container.left + P.container.width - P.elemW) := by
  unfold newLeftOpt
  rw [if_neg hax, hc]
  simp only [if_true]
  by_cases h1 : P.container.left ≤ m.pageX - P.dragPosX ∧
      m.pageX - P.dragPosX + P.elemW ≤ P.container.left + P.container.width
  · rw [if_pos h1]
    congr 1
    linarith [h1.2]
  · rw [if_neg h1, if_neg (by linarith : ¬m.pageX ≤ P.container.left),
      if_pos hpx]

/-! ### Claim theorems -/

/-- C1 (counterexample): the claim is false as stated.  With containment
enabled and an element (height 200) taller than its container (height 100),
a drag-move with the pointer past the container's top edge places the
element at the container's top, and the element's bottom extends past the
container's bounds. -/
theorem dragaction_containment_violated_for_oversized_element :
    (dragMoveStep
      { cfg := { axis := Axis.free, scroll := false, containment := true },
        container := { left := 0, top := 0, width := 100, height := 100 },
        elemW := 50, elemH := 200, dragPosX := 0, dragPosY := 0,
        zones := [], docScrollTop := 0, docScrollLeft := 0 }
      { top := 300, left := 0, entered := false, dropElement := none, dragging := true }
      { pageX := 10, pageY := -5 }).1.top = 0 ∧
    ¬((dragMoveStep
      { cfg := { axis := Axis.free, scroll := false, containment := true },
        container := { left := 0, top := 0, width := 100, height := 100 },
        elemW := 50, elemH := 200, dragPosX := 0, dragPosY := 0,
        zones := [], docScrollTop := 0, docScrollLeft := 0 }
      { top := 300, left := 0, entered := false, dropElement := none, dragging := true }
      { pageX := 10, pageY := -5 }).1.top + (200 : ℚ) ≤ 0 + 100) := by
  refine ⟨?_, ?_⟩ <;>
    simp only [dragMoveStep, moveNewPos, newTopOpt, newLeftOpt, overAfterMove,
      isOverDropZone, List.find?] <;>
    norm_num <;> simp <;> norm_num

/-- C1 (amended): for every drag-move of an active session with containment
enabled, provided the element fits inside the container (its extent does not
exceed the container's on either axis), the drag-start grab offset lies
within the element, and the element's bounds before the move lie within the
container, the element's bounds after the move lie entirely within the
container's bounds on both axes; and on each axis whose movement is not
disabled by the `axis` restriction, a pointer past an edge places the
element exactly at that edge. -/
theorem dragaction_containment_clamps_when_element_fits
    (P : DragParams) (s : SessionState) (m : MoveInput)
    (hd : s.dragging = true) (hc : P.cfg.containment = true)
    (hH : 0 < P.container.height) (hW : 0 < P.container.width)
    (hfh : P.elemH ≤ P.container.height) (hfw : P.elemW ≤ P.container.width)
    (hoy0 : 0 ≤ P.dragPosY) (hoyh : P.dragPosY ≤ P.elemH)
    (hox0 : 0 ≤ P.dragPosX) (hoxw : P.dragPosX ≤ P.elemW)
    (hinT : P.container.top ≤ s.top)
    (hinB : s.top + P.elemH ≤ P.container.top + P.container.height)
    (hinL : P.container.left ≤ s.left)
    (hinR : s.left + P.elemW ≤ P.container.left + P.container.width) :
    (P.container.top ≤ (dragMoveStep P s m).1.top ∧
      (dragMoveStep P s m).1.top + P.elemH ≤ P.container.top + P.container.height) ∧
    (P.container.left ≤ (dragMoveStep P s m).1.left ∧
      (dragMoveStep P s m).1.left + P.elemW ≤ P.container.left + P.container.width) ∧
    (¬P.cfg.axis = Axis.horizontal → m.pageY ≤ P.container.top →
      (dragMoveStep P s m).1.top = P.container.top) ∧
    (¬P.cfg.axis = Axis.horizontal → P.container.top + P.container.height ≤ m.pageY →
      (dragMoveStep P s m).1.top + P.elemH = P.container.top + P.container.height) ∧
    (¬P.cfg.axis = Axis.vertical → m.pageX ≤ P.container.left →
      (dragMoveStep P s m).1.left = P.container.left) ∧
    (¬P.cfg.axis = Axis.vertical → P.container.left + P.container.width ≤ m.pageX →
      (dragMoveStep P s m).1.left + P.elemW = P.container.left + P.container.width) := by
  have htop := (dragMoveStep_fst P s m hd).1
  have hleft := (dragMoveStep_fst P s m hd).2.1
  refine ⟨?_, ?_, ?_, ?_, ?_, ?_⟩
  · rw [htop]
    cases hto : newTopOpt P m with
    | none => exact ⟨hinT, hinB⟩
    | some t => exact newTopOpt_some_bounds P m t hc hfh hto
  · rw [hleft]
    cases hlo : newLeftOpt P m with
    | none => exact ⟨hinL, hinR⟩
    | some t => exact newLeftOpt_some_bounds P m t hc hfw hlo
  · intro hax hpy
    rw [htop, newTopOpt_snap_top P m hc hax hoy0 hpy]
    rfl
  · intro hax hpy
    rw [htop, newTopOpt_snap_bottom P m hc hax hoyh hH hpy]
    simp [Option.getD]
  · intro hax hpx
    rw [hleft, newLeftOpt_snap_left P m hc hax hox0 hpx]
    rfl
  · intro hax hpx
    rw [hleft, newLeftOpt_snap_right P m hc hax hoxw hW hpx]
    simp [Option.getD]

/-- C1 (witness): the amended theorem applied at a concrete session — a
10-by-10 element in a 100-by-100 container, pointer at (300, -50) — snaps
the element to the container's top-right corner. -/
theorem dragaction_containment_clamps_witness :
    (dragMoveStep
      { cfg := { axis := Axis.free, scroll := false, containment := true },
        container := { left := 0, top := 0, width := 100, height := 100 },
        elemW := 10, elemH := 10, dragPosX := 5, dragPosY := 5,
        zones := [], docScrollTop := 0, docScrollLeft := 0 }
      { top := 20, left := 20, entered := false, dropElement := none, dragging := true }
      { pageX := 300, pageY := -50 }).1.top = 0 ∧
    (dragMoveStep
      { cfg := { axis := Axis.free, scroll := false, containment := true },
        container := { left := 0, top := 0, width := 100, height := 100 },
        elemW := 10, elemH := 10, dragPosX := 5, dragPosY := 5,
        zones := [], docScrollTop := 0, docScrollLeft := 0 }
      { top := 20, left := 20, entered := false, dropElement := none, dragging := true }
      { pageX := 300, pageY := -50 }).1.left + (10 : ℚ) = 0 + 100 :=
  ⟨(dragaction_containment_clamps_when_element_fits _ _ _ rfl rfl (by norm_num)
      (by norm_num) (by norm_num) (by norm_num) (by norm_num) (by norm_num)
      (by norm_num) (by norm_num) (by norm_num) (by norm_num) (by norm_num)
      (by norm_num)).2.2.1 (by simp) (by norm_num),
    (dragaction_containment_clamps_when_element_fits _ _ _ rfl rfl (by norm_num)
      (by norm_num) (by norm_num) (by norm_num) (by norm_num) (by norm_num)
      (by norm_num) (by norm_num) (by norm_num) (by norm_num) (by norm_num)
      (by norm_num)).2.2.2.2.2 (by simp) (by norm_num)⟩

/-- C2: for every drag-move, with `axis = horizontal` the element's vertical
offset is never changed (the source skips the `newPosition.top` computation
and the resulting `NaN` style write is rejected), and with `axis = vertical`
the horizontal offset is never changed; only the permitted axis component is
updated. -/
theorem dragaction_axis_restriction_freezes_other_component
    (P : DragParams) (s : SessionState) (m : MoveInput) :
    (P.cfg.axis = Axis.horizontal → (dragMoveStep P s m).1.top = s.top) ∧
    (P.cfg.axis = Axis.vertical → (dragMoveStep P s m).1.left = s.left) := by
  constructor
  · intro hax
    cases hd : s.dragging with
    | false => rw [dragMoveStep_not_dragging P s m hd]
    | true =>
      rw [(dragMoveStep_fst P s m hd).1]
      rw [show newTopOpt P m = none from by unfold newTopOpt; rw [if_pos hax]]
      rfl
  · intro hax
    cases hd : s.dragging with
    | false => rw [dragMoveStep_not_dragging P s m hd]
    | true =>
      rw [(dragMoveStep_fst P s m hd).2.1]
      rw [show newLeftOpt P m = none from by unfold newLeftOpt; rw [if_pos hax]]
      rfl

/-- C2 (witness): a horizontal-axis session moved with a large vertical
pointer displacement keeps the element's top at its previous value 7. -/
theorem dragaction_axis_restriction_witness :
    (dragMoveStep
      { cfg := { axis := Axis.horizontal, scroll := false, containment := false },
        container := { left := 0, top := 0, width := 100, height := 100 },
        elemW := 10, elemH := 10, dragPosX := 5, dragPosY := 5,
        zones := [], docScrollTop := 0, docScrollLeft := 0 }
      { top := 7, left := 20, entered := false, dropElement := none, dragging := true }
      { pageX := 50, pageY := 999 }).1.top = 7 :=
  (dragaction_axis_restriction_freezes_other_component _ _ _).1 rfl

/-! ### Drop-zone event stream lemmas -/

theorem dragMoveStep_events_over_entered (P : DragParams) (s : SessionState)
    (m : MoveInput) (z : Rect) (hd : s.dragging = true) (he : s.entered = true)
    (hov : overAfterMove P s m = some z) :
    (dragMoveStep P s m).2 =
      [DragEvent.drag m.pageX m.pageY, DragEvent.dragover m.pageX m.pageY z] := by
  simp [dragMoveStep, hd, he, hov]

theorem dragMoveStep_events_over_new (P : DragParams) (s : SessionState)
    (m : MoveInput) (z : Rect) (hd : s.dragging = true) (he : s.entered = false)
    (hov : overAfterMove P s m = some z) :
    (dragMoveStep P s m).2 =
      [DragEvent.drag m.pageX m.pageY, DragEvent.dragenter m.pageX m.pageY z,
        DragEvent.dragover m.pageX m.pageY z] := by
  simp [dragMoveStep, hd, he, hov]

theorem dragMoveStep_events_out_entered (P : DragParams) (s : SessionState)
    (m : MoveInput) (hd : s.dragging = true) (he : s.entered = true)
    (hov : overAfterMove P s m = none) :
    (dragMoveStep P s m).2 =
      [DragEvent.drag m.pageX m.pageY,
        DragEvent.dragleave m.pageX m.pageY s.dropElement] := by
  simp [dragMoveStep, hd, he, hov]

theorem dragMoveStep_events_out_not_entered (P : DragParams) (s : SessionState)
    (m : MoveInput) (hd : s.dragging = true) (he : s.entered = false)
    (hov : overAfterMove P s m = none) :
    (dragMoveStep P s m).2 = [DragEvent.drag m.pageX m.pageY] := by
  simp [dragMoveStep, hd, he, hov]

theorem enterLeaveProj_append (l1 l2 : List DragEvent) :
    enterLeaveProj (l1 ++ l2) = enterLeaveProj l1 ++ enterLeaveProj l2 := by
  induction l1 with
  | nil => rfl
  | cons e rest ih => cases e <;> simp [enterLeaveProj, ih]

theorem dragTrace_altFrom (P : DragParams) (inputs : List MoveInput) :
    ∀ s : SessionState,
      altFrom s.entered (enterLeaveProj (dragTrace P s inputs).2) = true := by
  induction inputs with
  | nil => intro s; rfl
  | cons m rest ih =>
    intro s
    show altFrom s.entered (enterLeaveProj
      ((dragMoveStep P s m).2 ++ (dragTrace P (dragMoveStep P s m).1 rest).2)) = true
    rw [enterLeaveProj_append]
    cases hd : s.dragging with
    | false =>
      rw [dragMoveStep_not_dragging P s m hd]
      simpa [enterLeaveProj] using ih s
    | true =>
      have hen := (dragMoveStep_fst P s m hd).2.2.1
      cases hov : overAfterMove P s m with
      | some z =>
        rw [hov] at hen
        cases he : s.entered with
        | true =>
          rw [dragMoveStep_events_over_entered P s m z hd he hov]
          have := ih (dragMoveStep P s m).1
          rw [hen] at this
          simpa [enterLeaveProj] using this
        | false =>
          rw [dragMoveStep_events_over_new P s m z hd he hov]
          have := ih (dragMoveStep P s m).1
          rw [hen] at this
          simpa [enterLeaveProj, altFrom] using this
      | none =>
        rw [hov] at hen
        cases he : s.entered with
        | true =>
          rw [dragMoveStep_events_out_entered P s m hd he hov]
          have := ih (dragMoveStep P s m).1
          rw [hen] at this
          simpa [enterLeaveProj, altFrom] using this
        | false =>
          rw [dragMoveStep_events_out_not_entered P s m hd he hov]
          have := ih (dragMoveStep P s m).1
          rw [hen] at this
          simpa [enterLeaveProj] using this

/-- C3: over the drag-move steps of a session, the `dragenter`/`dragleave`
notifications alternate relative to the `_dropZoneEntered` flag — from a
not-entered state the next such notification can only be `dragenter`, from
an entered state only `dragleave`, so two `dragenter`s never occur without
an intervening `dragleave`; per step, `dragenter` is emitted exactly when an
overlap starts with the flag down (followed by `dragover`), only `dragover`
is emitted while overlap continues, and `dragleave` is emitted exactly when
overlap ends with the flag up. -/
theorem dragaction_dropzone_alternation (P : DragParams) (s : SessionState)
    (inputs : List MoveInput) (m : MoveInput) :
    altFrom s.entered (enterLeaveProj (dragTrace P s inputs).2) = true ∧
    (s.dragging = true → ∀ z, overAfterMove P s m = some z →
      (s.entered = true → (dragMoveStep P s m).2 =
        [DragEvent.drag m.pageX m.pageY, DragEvent.dragover m.pageX m.pageY z]) ∧
      (s.entered = false → (dragMoveStep P s m).2 =
        [DragEvent.drag m.pageX m.pageY, DragEvent.dragenter m.pageX m.pageY z,
          DragEvent.dragover m.pageX m.pageY z])) ∧
    (s.dragging = true → overAfterMove P s m = none →
      (s.entered = true → (dragMoveStep P s m).2 =
        [DragEvent.drag m.pageX m.pageY,
          DragEvent.dragleave m.pageX m.pageY s.dropElement]) ∧
      (s.entered = false → (dragMoveStep P s m).2 =
        [DragEvent.drag m.pageX m.pageY])) := by
  refine ⟨dragTrace_altFrom P inputs s, fun hd z hov => ⟨?_, ?_⟩, fun hd hov => ⟨?_, ?_⟩⟩
  · exact fun he => dragMoveStep_events_over_entered P s m z hd he hov
  · exact fun he => dragMoveStep_events_over_new P s m z hd he hov
  · exact fun he => dragMoveStep_events_out_entered P s m hd he hov
  · exact fun he => dragMoveStep_events_out_not_entered P s m hd he hov

/-- A concrete session without drop zones, used to instantiate hypotheses of
the drop-zone theorems. -/
def zonelessParams : DragParams :=
  { cfg := { axis := Axis.free, scroll := false, containment := false },
    container := { left := 0, top := 0, width := 100, height := 100 },
    elemW := 10, elemH := 10, dragPosX := 0, dragPosY := 0,
    zones := [], docScrollTop := 0, docScrollLeft := 0 }

/-- A concrete not-entered active session state. -/
def freshSession : SessionState :=
  { top := 0, left := 0, entered := false, dropElement := none, dragging := true }

/-- C3 (witness): a not-entered session with no intersecting drop zone emits
only the `drag` notification on a move. -/
theorem dragaction_dropzone_alternation_witness :
    (dragMoveStep zonelessParams freshSession
      { pageX := 3, pageY := 4 }).2 = [DragEvent.drag 3 4] :=
  ((dragaction_dropzone_alternation zonelessParams freshSession []
    { pageX := 3, pageY := 4 }).2.2 rfl rfl).2 rfl

/-! ### Drag-end lemmas -/

theorem overAfterMove_post_rect (P : DragParams) (s : SessionState) (m : MoveInput)
    (hd : s.dragging = true) :
    isOverDropZone P.docScrollTop P.docScrollLeft
      { left := (dragMoveStep P s m).1.left, top := (dragMoveStep P s m).1.top,
        width := P.elemW, height := P.elemH } P.zones = overAfterMove P s m := by
  rw [(dragMoveStep_fst P s m hd).1, (dragMoveStep_fst P s m hd).2.1]
  rfl

theorem dragEndEvents_ends_with_dragend (P : DragParams) (s : SessionState)
    (px py : ℚ) (hd : s.dragging = true) :
    (dragEndEvents P s px py).getLast? = some (DragEvent.dragend px py) := by
  unfold dragEndEvents
  rw [hd]
  rw [if_neg (by simp)]
  exact List.getLast?_concat _

/-- C6: for every drag-end of an active session following a drag-move, the
`dragend` notification with the final pointer coordinates is always the last
event emitted, and whenever a drop zone is currently entered
(`_dropZoneEntered` up after the move) a `drop` notification referencing
that zone is emitted immediately before the `dragend`. -/
theorem dragaction_drop_precedes_dragend (P : DragParams) (s : SessionState)
    (m : MoveInput) (px py : ℚ) (hd : s.dragging = true) :
    (dragEndEvents P (dragMoveStep P s m).1 px py).getLast? =
      some (DragEvent.dragend px py) ∧
    ((dragMoveStep P s m).1.entered = true →
      ∃ z, overAfterMove P s m = some z ∧
        dragEndEvents P (dragMoveStep P s m).1 px py =
          [DragEvent.drop px py z, DragEvent.dragend px py]) := by
  have hfst := dragMoveStep_fst P s m hd
  have hd' : (dragMoveStep P s m).1.dragging = true := by
    rw [hfst.2.2.2]
    exact hd
  constructor
  · exact dragEndEvents_ends_with_dragend P _ px py hd'
  · intro he
    have hov : (overAfterMove P s m).isSome = true := by
      rw [← hfst.2.2.1]
      exact he
    obtain ⟨z, hz⟩ := Option.isSome_iff_exists.mp hov
    refine ⟨z, hz, ?_⟩
    unfold dragEndEvents
    rw [hd', if_neg (by simp), he, if_pos rfl, overAfterMove_post_rect P s m hd, hz]
    rfl

/-- Concrete session parameters with one drop zone, for the drag-end
witness. -/
def oneZoneParams : DragParams :=
  { cfg := { axis := Axis.free, scroll := false, containment := false },
    container := { left := 0, top := 0, width := 400, height := 400 },
    elemW := 10, elemH := 10, dragPosX := 0, dragPosY := 0,
    zones := [{ left := 40, top := 40, width := 20, height := 20 }],
    docScrollTop := 0, docScrollLeft := 0 }

/-- The single drop zone of `oneZoneParams`. -/
def oneZoneRect : Rect :=
  { left := 40, top := 40, width := 20, height := 20 }

/-- A concrete not-entered active session state for `oneZoneParams`. -/
def oneZoneSession : SessionState :=
  { top := 0, left := 0, entered := false, dropElement := none, dragging := true }

theorem oneZone_overAfterMove :
    overAfterMove oneZoneParams oneZoneSession { pageX := 45, pageY := 45 } =
      some oneZoneRect := by
  simp only [oneZoneParams, oneZoneSession, oneZoneRect, overAfterMove,
    isOverDropZone, moveNewPos, newTopOpt, newLeftOpt, within, List.find?]
  simp
  norm_num

/-- C6 (witness): ending a session whose last move left the element over the
single drop zone emits `drop` on that zone followed by `dragend`. -/
theorem dragaction_drop_precedes_dragend_witness :
    dragEndEvents oneZoneParams
      (dragMoveStep oneZoneParams oneZoneSession { pageX := 45, pageY := 45 }).1
      45 45 =
      [DragEvent.drop 45 45 oneZoneRect, DragEvent.dragend 45 45] := by
  obtain ⟨z, hz, hev⟩ :=
    (dragaction_drop_precedes_dragend oneZoneParams oneZoneSession
      { pageX := 45, pageY := 45 } 45 45 rfl).2
      (by rw [(dragMoveStep_fst _ _ _ rfl).2.2.1, oneZone_overAfterMove]; rfl)
  rw [oneZone_overAfterMove] at hz
  injection hz with h
  rw [← h] at hev
  exact hev

/-- C7: the overflow styles of the body and of the scroll container saved at
drag-start are restored at drag-end to their pre-drag values, the saved
fields are cleared, and two sequential sessions on the same controller each
independently save and restore them, so no overflow value set during a
session persists past its end. -/
theorem dragaction_overflow_round_trip (s : OverflowState)
    (scroll1 scroll2 containerIsBody : Bool) :
    ((overflowDragEnd containerIsBody
        (overflowDragStart scroll1 containerIsBody s)).bodyOverflow =
      s.bodyOverflow ∧
    (overflowDragEnd containerIsBody
        (overflowDragStart scroll1 containerIsBody s)).containerOverflow =
      s.containerOverflow ∧
    (overflowDragEnd containerIsBody
        (overflowDragStart scroll1 containerIsBody s)).bodySaved = none) ∧
    ((overflowDragEnd containerIsBody (overflowDragStart scroll2 containerIsBody
        (overflowDragEnd containerIsBody
          (overflowDragStart scroll1 containerIsBody s)))).bodyOverflow =
      s.bodyOverflow ∧
    (overflowDragEnd containerIsBody (overflowDragStart scroll2 containerIsBody
        (overflowDragEnd containerIsBody
          (overflowDragStart scroll1 containerIsBody s)))).containerOverflow =
      s.containerOverflow) := by
  cases containerIsBody <;>
    simp [overflowDragStart, overflowDragEnd]

/-- C10: a truthy constructor argument that is neither a string nor an
element — here the number `5` — raises neither of the documented errors and
produces no controller: the resolved element stays `null` and reading its
`dragAction` property throws a `TypeError`. -/
theorem dragaction_construct_non_element_type_error :
    JSValue.truthy (JSValue.numv 5) = true ∧
    JSValue.isStr (JSValue.numv 5) = false ∧
    JSValue.isElem (JSValue.numv 5) = false ∧
    construct (fun _ => none) (fun _ => none) (JSValue.numv 5) =
      Except.error ConstructError.typeError ∧
    ConstructError.typeError ≠ ConstructError.missingError ∧
    ConstructError.typeError ≠ ConstructError.nullSelectorError := by
  refine ⟨rfl, rfl, rfl, ?_, by decide, by decide⟩
  simp [construct, JSValue.truthy]

/-- C4 (counterexample): the claim's `if and only if` is false.  A `NodeList`
argument is a supplied target (truthy) and not a selector string, yet
construction raises an error (a `TypeError`, not one of the documented
ones). -/
theorem dragaction_construct_iff_counterexample :
    JSValue.truthy (JSValue.nodeList [0]) = true ∧
    JSValue.isStr (JSValue.nodeList [0]) = false ∧
    construct (fun _ => none) (fun _ => none) (JSValue.nodeList [0]) =
      Except.error ConstructError.typeError ∧
    ConstructError.typeError ≠ ConstructError.missingError ∧
    ConstructError.typeError ≠ ConstructError.nullSelectorError :=
  ⟨rfl, rfl, rfl, by decide, by decide⟩

theorem construct_numv (query : String → Option Nat) (owner : Nat → Option Nat)
    (q : ℚ) :
    construct query owner (JSValue.numv q) =
      if q = 0 then Except.error ConstructError.missingError
      else Except.error ConstructError.typeError := by
  by_cases h : q = 0
  · rw [if_pos h]
    unfold construct
    rw [if_pos (by simp [JSValue.truthy, h])]
  · rw [if_neg h]
    unfold construct
    rw [if_neg (by simp [JSValue.truthy, h])]

theorem construct_strv (query : String → Option Nat) (owner : Nat → Option Nat)
    (s : String) :
    construct query owner (JSValue.strv s) =
      if s = "" then Except.error ConstructError.missingError
      else
        match query s with
        | none => Except.error ConstructError.nullSelectorError
        | some i => Except.ok { elemId := i, destroyedPrior := owner i } := by
  by_cases h : s = ""
  · rw [if_pos h]
    unfold construct
    rw [if_pos (by simp [JSValue.truthy, h])]
  · rw [if_neg h]
    unfold construct
    rw [if_neg (by simp [JSValue.truthy, h])]

/-- C4 (amended): construction raises one of the two documented errors if and
only if no target is supplied (a falsy argument) or a supplied selector
string resolves to no element; a truthy argument of any other non-element
type instead raises a `TypeError`; and every successful construction on a
target that already owns a controller destroys that prior controller
first. -/
theorem dragaction_construct_errors_and_single_owner
    (query : String → Option Nat) (owner : Nat → Option Nat) (arg : JSValue) :
    ((∃ e, construct query owner arg = Except.error e ∧
        (e = ConstructError.missingError ∨ e = ConstructError.nullSelectorError)) ↔
      (arg.truthy = false ∨ ∃ s, arg = JSValue.strv s ∧ query s = none)) ∧
    (arg.truthy = true → arg.isStr = false → arg.isElem = false →
      construct query owner arg = Except.error ConstructError.typeError) ∧
    (∀ r, construct query owner arg = Except.ok r →
      r.destroyedPrior = owner r.elemId) := by
  refine ⟨⟨?_, ?_⟩, ?_, ?_⟩
  · rintro ⟨e, he, hdoc⟩
    cases arg with
    | undef => exact Or.inl rfl
    | nullv => exact Or.inl rfl
    | boolv b =>
      cases b with
      | false => exact Or.inl rfl
      | true =>
        rw [show construct query owner (JSValue.boolv true) =
            Except.error ConstructError.typeError from rfl] at he
        injection he with he
        rw [← he] at hdoc
        rcases hdoc with h | h <;> cases h
    | numv q =>
      by_cases hq : q = 0
      · exact Or.inl (by simp [JSValue.truthy, hq])
      · rw [construct_numv, if_neg hq] at he
        injection he with he
        rw [← he] at hdoc
        rcases hdoc with h | h <;> cases h
    | strv s =>
      by_cases hs : s = ""
      · exact Or.inl (by simp [JSValue.truthy, hs])
      · cases hqs : query s with
        | none => exact Or.inr ⟨s, rfl, hqs⟩
        | some i =>
          rw [construct_strv, if_neg hs, hqs] at he
          cases he
    | element i =>
      rw [show construct query owner (JSValue.element i) =
          Except.ok { elemId := i, destroyedPrior := owner i } from rfl] at he
      cases he
    | nodeList ids =>
      rw [show construct query owner (JSValue.nodeList ids) =
          Except.error ConstructError.typeError from rfl] at he
      injection he with he
      rw [← he] at hdoc
      rcases hdoc with h | h <;> cases h
  · rintro (ht | ⟨s, rfl, hq⟩)
    · exact ⟨ConstructError.missingError, by unfold construct; rw [if_pos ht],
        Or.inl rfl⟩
    · by_cases hs : s = ""
      · exact ⟨ConstructError.missingError,
          by rw [construct_strv, if_pos hs], Or.inl rfl⟩
      · exact ⟨ConstructError.nullSelectorError,
          by rw [construct_strv, if_neg hs, hq], Or.inr rfl⟩
  · intro ht hs hel
    cases arg with
    | undef => cases ht
    | nullv => cases ht
    | strv s => simp [JSValue.isStr] at hs
    | element i => simp [JSValue.isElem] at hel
    | boolv b =>
      cases b with
      | false => cases ht
      | true => rfl
    | numv q =>
      have hq : ¬q = 0 := by
        intro h
        rw [show JSValue.truthy (JSValue.numv q) = false by
          simp [JSValue.truthy, h]] at ht
        cases ht
      rw [construct_numv, if_neg hq]
    | nodeList ids => rfl
  · intro r hr
    cases arg with
    | undef => cases hr
    | nullv => cases hr
    | boolv b =>
      cases b with
      | false => cases hr
      | true => cases hr
    | numv q =>
      rw [construct_numv] at hr
      by_cases hq : q = 0
      · rw [if_pos hq] at hr
        cases hr
      · rw [if_neg hq] at hr
        cases hr
    | nodeList ids => cases hr
    | element i =>
      rw [show construct query owner (JSValue.element i) =
          Except.ok { elemId := i, destroyedPrior := owner i } from rfl] at hr
      injection hr with hr
      rw [← hr]
    | strv s =>
      rw [construct_strv] at hr
      by_cases hs : s = ""
      · rw [if_pos hs] at hr
        cases hr
      · rw [if_neg hs] at hr
        cases hqs : query s with
        | none =>
          rw [hqs] at hr
          cases hr
        | some i =>
          rw [hqs] at hr
          injection hr with hr
          rw [← hr]

/-- C4 (witness): the amended theorem at a target element (id 3) that
already owns a controller (id 9): construction succeeds and destroys the
prior controller. -/
theorem dragaction_construct_single_owner_witness :
    (construct (fun _ => none) (fun _ => some 9) (JSValue.element 3) =
      Except.ok { elemId := 3, destroyedPrior := some 9 }) ∧
    ({ elemId := 3, destroyedPrior := some 9 } : ConstructOk).destroyedPrior =
      some 9 :=
  ⟨rfl,
    (dragaction_construct_errors_and_single_owner (fun _ => none)
      (fun _ => some 9) (JSValue.element 3)).2.2
      { elemId := 3, destroyedPrior := some 9 } rfl⟩

/-! ### Bounding-box intersection lemmas -/

theorem not_or_decide4 (p q r s : Prop) [Decidable p] [Decidable q]
    [Decidable r] [Decidable s] :
    (!(decide p || decide q || decide r || decide s)) = true ↔
      ¬p ∧ ¬q ∧ ¬r ∧ ¬s := by
  by_cases hp : p <;> by_cases hq : q <;> by_cases hr : r <;> by_cases hs : s <;>
    simp [hp, hq, hr, hs]

theorem within_eq_true_iff (sT sL : ℚ) (a b : Rect) :
    within sT sL a b = true ↔
      (b.left + sL ≤ a.left + sL + a.width ∧
        a.left + sL ≤ b.left + sL + b.width ∧
        b.top + sT ≤ a.top + sT + a.height ∧
        a.top + sT ≤ b.top + sT + b.height) := by
  rw [show within sT sL a b =
      !(decide (b.left + sL > a.left + sL + a.width) ||
        decide (b.left + sL + b.width < a.left + sL) ||
        decide (b.top + sT > a.top + sT + a.height) ||
        decide (b.top + sT + b.height < a.top + sT)) from rfl]
  rw [not_or_decide4]
  rw [not_lt, not_lt, not_lt, not_lt]

theorem within_iff_sharesPoint (sT sL : ℚ) (a b : Rect)
    (haw : 0 ≤ a.width) (hah : 0 ≤ a.height)
    (hbw : 0 ≤ b.width) (hbh : 0 ≤ b.height) :
    within sT sL a b = true ↔ sharesPoint a b := by
  rw [within_eq_true_iff]
  constructor
  · rintro ⟨h1, h2, h3, h4⟩
    exact ⟨max a.left b.left, max a.top b.top,
      ⟨le_max_left _ _, max_le (by linarith) (by linarith)⟩,
      ⟨le_max_right _ _, max_le (by linarith) (by linarith)⟩,
      ⟨le_max_left _ _, max_le (by linarith) (by linarith)⟩,
      ⟨le_max_right _ _, max_le (by linarith) (by linarith)⟩⟩
  · rintro ⟨x, y, ⟨hax1, hax2⟩, ⟨hbx1, hbx2⟩, ⟨hay1, hay2⟩, ⟨hby1, hby2⟩⟩
    exact ⟨by linarith, by linarith, by linarith, by linarith⟩

theorem find?_eq_some_split {α : Type} (p : α → Bool) (l : List α) (a : α)
    (h : l.find? p = some a) :
    ∃ l1 l2, l = l1 ++ a :: l2 ∧ (∀ x ∈ l1, p x = false) ∧ p a = true := by
  induction l with
  | nil => cases h
  | cons x xs ih =>
    cases hp : p x with
    | true =>
      rw [List.find?_cons_of_pos _ hp] at h
      injection h with h
      subst h
      exact ⟨[], xs, rfl, ⟨fun y hy => absurd hy (List.not_mem_nil y), hp⟩⟩
    | false =>
      rw [List.find?_cons_of_neg _ (by simp [hp])] at h
      obtain ⟨l1, l2, heq, hall, hpa⟩ := ih h
      refine ⟨x :: l1, l2, by rw [heq]; rfl, ?_, hpa⟩
      intro y hy
      rcases List.mem_cons.mp hy with h | h
      · subst h
        exact hp
      · exact hall y h

/-- C5: for every configured drop-zone list and drag-element position, the
drop-zone evaluation returns `none` exactly when no zone's closed bounding
box intersects the drag element's, and when it returns a zone, that zone
intersects the element and is the first such zone in configured order (no
earlier zone in the list intersects). -/
theorem dragaction_first_intersecting_dropzone
    (sT sL : ℚ) (dragEl : Rect) (zones : List Rect)
    (hw : 0 ≤ dragEl.width) (hh : 0 ≤ dragEl.height)
    (hz : ∀ z ∈ zones, 0 ≤ z.width ∧ 0 ≤ z.height) :
    (isOverDropZone sT sL dragEl zones = none ↔
      ∀ z ∈ zones, ¬sharesPoint dragEl z) ∧
    (∀ z, isOverDropZone sT sL dragEl zones = some z →
      sharesPoint dragEl z ∧
      ∃ l1 l2, zones = l1 ++ z :: l2 ∧ ∀ x ∈ l1, ¬sharesPoint dragEl x) := by
  constructor
  · rw [isOverDropZone, List.find?_eq_none]
    constructor
    · intro h z hmem
      rw [← within_iff_sharesPoint sT sL dragEl z hw hh (hz z hmem).1 (hz z hmem).2]
      exact h z hmem
    · intro h z hmem
      rw [within_iff_sharesPoint sT sL dragEl z hw hh (hz z hmem).1 (hz z hmem).2]
      exact h z hmem
  · intro z hsome
    have hmem : z ∈ zones := List.mem_of_find?_eq_some hsome
    have hpz : within sT sL dragEl z = true := List.find?_some hsome
    refine ⟨(within_iff_sharesPoint sT sL dragEl z hw hh
      (hz z hmem).1 (hz z hmem).2).mp hpz, ?_⟩
    obtain ⟨l1, l2, heq, hall, _⟩ := find?_eq_some_split _ zones z hsome
    refine ⟨l1, l2, heq, fun x hx => ?_⟩
    have hxmem : x ∈ zones := by
      rw [heq]
      exact List.mem_append_left _ hx
    rw [← within_iff_sharesPoint sT sL dragEl x hw hh (hz x hxmem).1 (hz x hxmem).2]
    simp [hall x hx]

/-- C5 (witness): with two configured zones of which only the second
intersects a 10-by-10 element at the origin, the evaluation returns the
second zone, which indeed shares a point with the element. -/
theorem dragaction_first_intersecting_dropzone_witness :
    sharesPoint { left := 0, top := 0, width := 10, height := 10 }
      { left := 5, top := 5, width := 10, height := 10 } :=
  ((dragaction_first_intersecting_dropzone 0 0
      { left := 0, top := 0, width := 10, height := 10 }
      [{ left := 100, top := 100, width := 5, height := 5 },
        { left := 5, top := 5, width := 10, height := 10 }]
      (by norm_num) (by norm_num)
      (by intro z hmem; fin_cases hmem <;> norm_num)).2
    { left := 5, top := 5, width := 10, height := 10 }
    (by simp only [isOverDropZone, within, List.find?]; simp; norm_num)).1

/-! ### Scroll-on-drag lemmas -/

theorem setScrollOffset_mem (maxOffset v : ℚ) (h : 0 ≤ maxOffset) :
    0 ≤ setScrollOffset maxOffset v ∧ setScrollOffset maxOffset v ≤ maxOffset :=
  ⟨le_max_left _ _, max_le h (min_le_right _ _)⟩

/-- C8 (counterexample): the claim is false as stated.  An element whose
bottom edge sits exactly on its container's bottom edge (distance 0, well
within 20 px) is not nudged at all: the source's guard additionally requires
the element's bottom to lie strictly inside the container. -/
theorem dragaction_scroll_edge_counterexample :
    (scrollStepContainer 50 0 50 10 0 0 100 100 40 0 200 200).1 = 40 ∧
    (100 : ℚ) - ((50 : ℚ) - 0 + 50) ≤ 20 ∧
    ¬((50 : ℚ) - 0 < 20) ∧
    (40 : ℚ) ≠ setScrollOffset 200 (40 + 10) := by
  refine ⟨?_, by norm_num, by norm_num, by norm_num [setScrollOffset]⟩
  simp only [scrollStepContainer, setScrollOffset]
  norm_num

/-- C8 (amended): on a drag-move with scroll-on-drag enabled and a scroll
container other than the body, each axis is handled independently: when the
element's near edge is within 20 px of (or past) the container's top/left
edge, the scroll offset is nudged 10 px toward that edge; when instead its
far edge is within 20 px of the container's bottom/right edge while
remaining strictly inside it, the offset is nudged 10 px toward that edge;
nudges are clamped by the platform, so starting from a valid offset the
scroll offset always stays within `[0, max]` and never exceeds the
container's maximum scroll extent. -/
theorem dragaction_scroll_nudges_toward_edges
    (elemTop elemLeft elemH elemW cTop cLeft cH cW
      scrollTop scrollLeft maxTop maxLeft : ℚ)
    (hmaxT : 0 ≤ maxTop) (hmaxL : 0 ≤ maxLeft)
    (hsT0 : 0 ≤ scrollTop) (hsTm : scrollTop ≤ maxTop)
    (hsL0 : 0 ≤ scrollLeft) (hsLm : scrollLeft ≤ maxLeft) :
    (elemTop - cTop < 20 →
      (scrollStepContainer elemTop elemLeft elemH elemW cTop cLeft cH cW
        scrollTop scrollLeft maxTop maxLeft).1 =
        setScrollOffset maxTop (scrollTop - 10)) ∧
    (¬(elemTop - cTop < 20) → cH - (elemTop - cTop + elemH) < 20 →
      elemTop - cTop + elemH < cH →
      (scrollStepContainer elemTop elemLeft elemH elemW cTop cLeft cH cW
        scrollTop scrollLeft maxTop maxLeft).1 =
        setScrollOffset maxTop (scrollTop + 10)) ∧
    (0 ≤ (scrollStepContainer elemTop elemLeft elemH elemW cTop cLeft cH cW
        scrollTop scrollLeft maxTop maxLeft).1 ∧
      (scrollStepContainer elemTop elemLeft elemH elemW cTop cLeft cH cW
        scrollTop scrollLeft maxTop maxLeft).1 ≤ maxTop) ∧
    (elemLeft - cLeft < 20 →
      (scrollStepContainer elemTop elemLeft elemH elemW cTop cLeft cH cW
        scrollTop scrollLeft maxTop maxLeft).2 =
        setScrollOffset maxLeft (scrollLeft - 10)) ∧
    (¬(elemLeft - cLeft < 20) → cW - (elemLeft - cLeft + elemW) < 20 →
      elemLeft - cLeft + elemW < cW →
      (scrollStepContainer elemTop elemLeft elemH elemW cTop cLeft cH cW
        scrollTop scrollLeft maxTop maxLeft).2 =
        setScrollOffset maxLeft (scrollLeft + 10)) ∧
    (0 ≤ (scrollStepContainer elemTop elemLeft elemH elemW cTop cLeft cH cW
        scrollTop scrollLeft maxTop maxLeft).2 ∧
      (scrollStepContainer elemTop elemLeft elemH elemW cTop cLeft cH cW
        scrollTop scrollLeft maxTop maxLeft).2 ≤ maxLeft) := by
  simp only [scrollStepContainer]
  refine ⟨?_, ?_, ?_, ?_, ?_, ?_⟩
  · intro h1
    rw [if_pos h1]
  · intro h1 h2 h3
    rw [if_neg h1, if_pos ⟨by linarith, h3⟩]
  · by_cases h1 : elemTop - cTop < 20
    · rw [if_pos h1]
      exact setScrollOffset_mem _ _ hmaxT
    · rw [if_neg h1]
      by_cases h2 : elemTop - cTop + elemH > cH - 20 ∧ elemTop - cTop + elemH < cH
      · rw [if_pos h2]
        exact setScrollOffset_mem _ _ hmaxT
      · rw [if_neg h2]
        exact ⟨hsT0, hsTm⟩
  · intro h1
    rw [if_pos h1]
  · intro h1 h2 h3
    rw [if_neg h1, if_pos ⟨by linarith, h3⟩]
  · by_cases h1 : elemLeft - cLeft < 20
    · rw [if_pos h1]
      exact setScrollOffset_mem _ _ hmaxL
    · rw [if_neg h1]
      by_cases h2 : elemLeft - cLeft + elemW > cW - 20 ∧ elemLeft - cLeft + elemW < cW
      · rw [if_pos h2]
        exact setScrollOffset_mem _ _ hmaxL
      · rw [if_neg h2]
        exact ⟨hsL0, hsLm⟩

/-- C8 (witness): an element whose bottom sits 5 px above the container's
bottom edge (within the 20 px threshold, strictly inside) gets its container
scrolled down by 10 px. -/
theorem dragaction_scroll_nudges_witness :
    (scrollStepContainer 50 0 45 10 0 0 100 100 40 0 200 200).1 =
      setScrollOffset 200 (40 + 10) :=
  (dragaction_scroll_nudges_toward_edges 50 0 45 10 0 0 100 100 40 0 200 200
    (by norm_num) (by norm_num) (by norm_num) (by norm_num) (by norm_num)
    (by norm_num)).2.1 (by norm_num) (by norm_num) (by norm_num)

/-- C9: the configuration setters are total (never raise): every value
assigned to `axis` yields one of `free`, `vertical`, `horizontal`, any value
outside that enumeration falls back to `free`, and any value assigned to
`scroll` or `containment` is coerced to a boolean. -/
theorem dragaction_setters_coerce (v : JSValue) :
    (setAxis v = "free" ∨ setAxis v = "vertical" ∨ setAxis v = "horizontal") ∧
    (¬(jsToString v = "free" ∨ jsToString v = "vertical" ∨
        jsToString v = "horizontal") → setAxis v = "free") ∧
    (setScroll v = true ∨ setScroll v = false) ∧
    (setContainment v = true ∨ setContainment v = false) := by
  refine ⟨?_, ?_, ?_, ?_⟩
  · unfold setAxis
    by_cases h : jsToString v = "free" ∨ jsToString v = "vertical" ∨
        jsToString v = "horizontal"
    · rw [if_pos h]
      exact h
    · rw [if_neg h]
      exact Or.inl rfl
  · intro h
    unfold setAxis
    rw [if_neg h]
  · exact Bool.eq_false_or_eq_true (setScroll v)
  · exact Bool.eq_false_or_eq_true (setContainment v)

/-- C9 (witness): the unrecognized axis value `diagonal` falls back to
`free`. -/
theorem dragaction_setters_coerce_witness :
    setAxis (JSValue.strv "diagonal") = "free" :=
  (dragaction_setters_coerce (JSValue.strv "diagonal")).2.1 (by decide)

end CoralDragAction
